import Mathlib

/-
Verification of the WGAN model definitions (model/WGAN.py): a shallow embedding
of the Generator and Discriminator architectures and proofs of the structural
and shape properties stated in the specification.

Tensors are modelled in NCHW layout as a shape together with a total data
function into the reals.  Framework layer primitives (Conv2d, ConvTranspose2d,
BatchNorm2d, ReLU, LeakyReLU, Tanh) are given their standard elementwise
semantics; learned parameters are carried as explicit weight records.
-/

namespace WGAN

/-- A 4-dimensional tensor in NCHW layout: batch, channels, height, width.
The data function is total; only indices below the bounds are meaningful. -/
structure Tensor4 where
  n : ℕ
  c : ℕ
  h : ℕ
  w : ℕ
  data : ℕ → ℕ → ℕ → ℕ → ℝ

/-- A 3-dimensional tensor, the result of reducing the batch dimension. -/
structure Tensor3 where
  c : ℕ
  h : ℕ
  w : ℕ
  data : ℕ → ℕ → ℕ → ℝ

/-- A 1-dimensional tensor, the result of a view with one axis. -/
structure Tensor1 where
  len : ℕ
  data : ℕ → ℝ

/-- Learned weight of one convolution or transposed-convolution layer,
indexed by two channel indices and two kernel coordinates. -/
structure ConvW where
  w : ℕ → ℕ → ℕ → ℕ → ℝ

/-- Learned parameters and stored statistics of one BatchNorm2d layer,
indexed by channel. -/
structure BNW where
  gamma : ℕ → ℝ
  beta : ℕ → ℝ
  mean : ℕ → ℝ
  var : ℕ → ℝ
  eps : ℝ

/-- Output spatial size of nn.Conv2d: floor of (h + 2 pad - ks) / stride, plus 1. -/
def convOutDim (h ks stride pad : ℕ) : ℕ :=
  (h + 2 * pad - ks) / stride + 1

/-- Output spatial size of nn.ConvTranspose2d: (h - 1) stride + ks - 2 pad. -/
def deconvOutDim (h ks stride pad : ℕ) : ℕ :=
  (h - 1) * stride + ks - 2 * pad

/-- nn.Conv2d(n_in, n_out, ks, stride, padding=pad, bias=False). -/
structure Conv2d where
  n_in : ℕ
  n_out : ℕ
  ks : ℕ
  stride : ℕ
  pad : ℕ
  weight : ℕ → ℕ → ℕ → ℕ → ℝ

/-- nn.ConvTranspose2d(n_in, n_out, ks, stride, padding=pad, bias=False). -/
structure ConvTranspose2d where
  n_in : ℕ
  n_out : ℕ
  ks : ℕ
  stride : ℕ
  pad : ℕ
  weight : ℕ → ℕ → ℕ → ℕ → ℝ

/-- nn.BatchNorm2d(num_features) with its learned affine parameters and the
statistics it normalizes by. -/
structure BatchNorm2d where
  num_features : ℕ
  gamma : ℕ → ℝ
  beta : ℕ → ℝ
  mean : ℕ → ℝ
  var : ℕ → ℝ
  eps : ℝ

/-- Zero-padded read of one input plane; the coordinates a and b are taken in
the padded frame, so the pixel read is at a - pad and b - pad. -/
def paddedRead (x : Tensor4) (n ci a b pad : ℕ) : ℝ :=
  if pad ≤ a ∧ a < x.h + pad ∧ pad ≤ b ∧ b < x.w + pad then
    x.data n ci (a - pad) (b - pad)
  else 0

/-- Semantics of nn.Conv2d on a 4-dimensional tensor: a strided dot product of
the kernel with the zero-padded input, per output channel. -/
def Conv2d.fwd (cv : Conv2d) (x : Tensor4) : Tensor4 :=
  { n := x.n
    c := cv.n_out
    h := convOutDim x.h cv.ks cv.stride cv.pad
    w := convOutDim x.w cv.ks cv.stride cv.pad
    data := fun n co i j =>
      ∑ ci ∈ Finset.range cv.n_in, ∑ u ∈ Finset.range cv.ks, ∑ v ∈ Finset.range cv.ks,
        cv.weight co ci u v * paddedRead x n ci (cv.stride * i + u) (cv.stride * j + v) cv.pad }

/-- Semantics of nn.ConvTranspose2d: each input pixel scatters a copy of the
kernel into the (cropped) output; equivalently each output pixel sums the
kernel entries whose scatter position matches it. -/
def ConvTranspose2d.fwd (cv : ConvTranspose2d) (x : Tensor4) : Tensor4 :=
  { n := x.n
    c := cv.n_out
    h := deconvOutDim x.h cv.ks cv.stride cv.pad
    w := deconvOutDim x.w cv.ks cv.stride cv.pad
    data := fun n co i j =>
      ∑ ci ∈ Finset.range cv.n_in, ∑ a ∈ Finset.range x.h, ∑ b ∈ Finset.range x.w,
        ∑ u ∈ Finset.range cv.ks, ∑ v ∈ Finset.range cv.ks,
          if i + cv.pad = a * cv.stride + u ∧ j + cv.pad = b * cv.stride + v then
            cv.weight ci co u v * x.data n ci a b
          else 0 }

/-- Semantics of nn.BatchNorm2d: per-channel normalization by the stored
statistics followed by the learned affine map. -/
noncomputable def BatchNorm2d.fwd (bnm : BatchNorm2d) (x : Tensor4) : Tensor4 :=
  { x with data := fun n ci i j =>
      bnm.gamma ci * ((x.data n ci i j - bnm.mean ci) / Real.sqrt (bnm.var ci + bnm.eps))
        + bnm.beta ci }

/-- Semantics of nn.ReLU: elementwise maximum with zero. -/
noncomputable def reluFwd (x : Tensor4) : Tensor4 :=
  { x with data := fun n ci i j => max 0 (x.data n ci i j) }

/-- Semantics of nn.LeakyReLU: identity on nonnegative values, multiplication
by the negative slope otherwise. -/
noncomputable def leakyFwd (slope : ℝ) (x : Tensor4) : Tensor4 :=
  { x with data := fun n ci i j =>
      if 0 ≤ x.data n ci i j then x.data n ci i j else slope * x.data n ci i j }

/-- Semantics of nn.Tanh: elementwise hyperbolic tangent. -/
noncomputable def tanhFwd (x : Tensor4) : Tensor4 :=
  { x with data := fun n ci i j => Real.tanh (x.data n ci i j) }

/-- The module state a DeconvBlock holds after its constructor ran: the
transposed convolution and a BatchNorm2d.  The constructor creates the
BatchNorm2d unconditionally; its bn flag argument is never stored. -/
structure DeconvBlock where
  conv : ConvTranspose2d
  bn : BatchNorm2d

/-- The constructor DeconvBlock(n_in, n_out, ks, stride, pad, bn=True): sets
self.conv to the transposed convolution and self.bn to nn.BatchNorm2d(n_out).
The bn argument is accepted but not consulted anywhere in the body. -/
def DeconvBlock.init (n_in n_out ks stride pad : ℕ) (bn : Bool) (cw : ConvW) (bw : BNW) :
    DeconvBlock :=
  { conv := ⟨n_in, n_out, ks, stride, pad, cw.w⟩
    bn := ⟨n_out, bw.gamma, bw.beta, bw.mean, bw.var, bw.eps⟩ }

/-- Python truthiness of an nn.Module instance: nn.Module defines neither a
bool conversion nor a length, so testing a module is always True. -/
def moduleTruthy (_bnm : BatchNorm2d) : Bool :=
  true

/-- DeconvBlock.forward: first the transposed convolution, then the ReLU, and
then the batch normalization when self.bn tests true, which it always does
because self.bn is an nn.Module instance. -/
noncomputable def DeconvBlock.forward (blk : DeconvBlock) (x : Tensor4) : Tensor4 :=
  if moduleTruthy blk.bn then blk.bn.fwd (reluFwd (blk.conv.fwd x))
  else reluFwd (blk.conv.fwd x)

/-- One layer of an nn.Sequential pipeline as built by this model file. -/
inductive Layer where
  | conv2d (cv : Conv2d)
  | convT2d (cv : ConvTranspose2d)
  | batchNorm (bnm : BatchNorm2d)
  | leakyRelu (slope : ℝ)
  | tanhLayer
  | deconv (blk : DeconvBlock)

/-- The forward semantics of a single layer. -/
noncomputable def Layer.fwd : Layer → Tensor4 → Tensor4
  | Layer.conv2d cv, x => cv.fwd x
  | Layer.convT2d cv, x => cv.fwd x
  | Layer.batchNorm bnm, x => bnm.fwd x
  | Layer.leakyRelu slope, x => leakyFwd slope x
  | Layer.tanhLayer, x => tanhFwd x
  | Layer.deconv blk, x => blk.forward x

/-- nn.Sequential: apply the layers left to right. -/
noncomputable def seqFwd (ls : List Layer) (x : Tensor4) : Tensor4 :=
  ls.foldl (fun t l => l.fwd t) x

/-- The default padding of conv_block: the given pad when present, otherwise
ks / 2 / stride with integer division. -/
def resolvePad (ks stride : ℕ) : Option ℕ → ℕ
  | none => ks / 2 / stride
  | some q => q

/-- conv_block(n_in, n_out, ks, stride, pad=None, bn=True): resolves the
default padding, then returns Conv2d, BatchNorm2d, LeakyReLU(0.2) when bn is
true, and Conv2d, LeakyReLU(0.2) otherwise. -/
def conv_block (n_in n_out ks stride : ℕ) (pad : Option ℕ) (bn : Bool)
    (cw : ConvW) (bw : BNW) : List Layer :=
  if bn = true then
    [Layer.conv2d ⟨n_in, n_out, ks, stride, resolvePad ks stride pad, cw.w⟩,
     Layer.batchNorm ⟨n_out, bw.gamma, bw.beta, bw.mean, bw.var, bw.eps⟩,
     Layer.leakyRelu 0.2]
  else
    [Layer.conv2d ⟨n_in, n_out, ks, stride, resolvePad ks stride pad, cw.w⟩,
     Layer.leakyRelu 0.2]

/-- The Discriminator module state: the stored device-count hint, the stored
resolution flag, and the two pipelines built at construction time. -/
structure Discriminator where
  ngpu : ℕ
  im_size : ℕ
  main64 : List Layer
  main128 : List Layer

/-- The constructor Discriminator(im_size, ks, ndf, nc=3, ngpu=1): stores ngpu
and im_size and builds both pipelines exactly as in the source, pulling the
learned parameters of the k-th layer from the indexed families cw and bw. -/
def Discriminator.init (im_size ks ndf nc ngpu : ℕ) (cw : ℕ → ConvW) (bw : ℕ → BNW) :
    Discriminator :=
  { ngpu := ngpu
    im_size := im_size
    main64 :=
      conv_block nc ndf ks 2 (some 1) false (cw 0) (bw 0) ++
      conv_block ndf (ndf * 2) ks 2 (some 1) true (cw 1) (bw 1) ++
      conv_block (ndf * 2) (ndf * 4) ks 2 (some 1) true (cw 2) (bw 2) ++
      conv_block (ndf * 4) (ndf * 8) ks 2 (some 1) true (cw 3) (bw 3) ++
      [Layer.conv2d ⟨ndf * 8, 1, ks, 1, 0, (cw 4).w⟩]
    main128 :=
      conv_block nc ndf ks 2 (some 1) false (cw 5) (bw 5) ++
      conv_block ndf (ndf * 2) ks 2 (some 1) true (cw 6) (bw 6) ++
      conv_block (ndf * 2) (ndf * 4) ks 2 (some 1) true (cw 7) (bw 7) ++
      conv_block (ndf * 4) (ndf * 8) ks 2 (some 1) true (cw 8) (bw 8) ++
      conv_block (ndf * 8) (ndf * 16) ks 2 (some 1) true (cw 9) (bw 9) ++
      [Layer.conv2d ⟨ndf * 16, 1, ks, 1, 0, (cw 10).w⟩] }

/-- Tensor.mean(0): average over the batch dimension, which is removed. -/
noncomputable def meanDim0 (x : Tensor4) : Tensor3 :=
  { c := x.c
    h := x.h
    w := x.w
    data := fun ci i j => (∑ b ∈ Finset.range x.n, x.data b ci i j) / (x.n : ℝ) }

/-- Tensor.view(1): succeeds exactly when the tensor holds one element. -/
noncomputable def viewOne (t : Tensor3) : Option Tensor1 :=
  if t.c * t.h * t.w = 1 then some ⟨1, fun _ => t.data 0 0 0⟩ else none

/-- Discriminator.forward: run main64 when the stored im_size equals 64 and
main128 otherwise, then mean over dimension 0 and view as one element. -/
noncomputable def Discriminator.forward (D : Discriminator) (input : Tensor4) :
    Option Tensor1 :=
  if D.im_size = 64 then viewOne (meanDim0 (seqFwd D.main64 input))
  else viewOne (meanDim0 (seqFwd D.main128 input))

/-- The Generator module state: the stored device-count hint, the stored
resolution flag, and the two pipelines built at construction time. -/
structure Generator where
  ngpu : ℕ
  im_size : ℕ
  main64 : List Layer
  main128 : List Layer

/-- The constructor Generator(im_size, ks, nz, ngf, nc=3, ngpu=1): stores ngpu
and im_size and builds both pipelines exactly as in the source, pulling the
learned parameters of the k-th layer from the indexed families dw and bw. -/
def Generator.init (im_size ks nz ngf nc ngpu : ℕ) (dw : ℕ → ConvW) (bw : ℕ → BNW) :
    Generator :=
  { ngpu := ngpu
    im_size := im_size
    main64 :=
      [Layer.deconv (DeconvBlock.init nz (ngf * 8) ks 1 0 true (dw 0) (bw 0)),
       Layer.deconv (DeconvBlock.init (ngf * 8) (ngf * 4) ks 2 1 true (dw 1) (bw 1)),
       Layer.deconv (DeconvBlock.init (ngf * 4) (ngf * 2) ks 2 1 true (dw 2) (bw 2)),
       Layer.deconv (DeconvBlock.init (ngf * 2) ngf ks 2 1 true (dw 3) (bw 3)),
       Layer.convT2d ⟨ngf, nc, ks, 2, 1, (dw 4).w⟩,
       Layer.tanhLayer]
    main128 :=
      [Layer.deconv (DeconvBlock.init nz (ngf * 16) ks 1 0 true (dw 5) (bw 5)),
       Layer.deconv (DeconvBlock.init (ngf * 16) (ngf * 8) ks 2 1 true (dw 6) (bw 6)),
       Layer.deconv (DeconvBlock.init (ngf * 8) (ngf * 4) ks 2 1 true (dw 7) (bw 7)),
       Layer.deconv (DeconvBlock.init (ngf * 4) (ngf * 2) ks 2 1 true (dw 8) (bw 8)),
       Layer.deconv (DeconvBlock.init (ngf * 2) ngf ks 2 1 true (dw 9) (bw 9)),
       Layer.convT2d ⟨ngf, nc, ks, 2, 1, (dw 10).w⟩,
       Layer.tanhLayer] }

/-- Generator.forward: run main64 when the stored im_size equals 64 and
main128 otherwise. -/
noncomputable def Generator.forward (G : Generator) (input : Tensor4) : Tensor4 :=
  if G.im_size = 64 then seqFwd G.main64 input else seqFwd G.main128 input

/-- The input and output channel counts of each weight-bearing stage of a
pipeline; a DeconvBlock stage contributes those of its transposed convolution. -/
def stageChans : List Layer → List (ℕ × ℕ)
  | [] => []
  | Layer.conv2d cv :: ls => (cv.n_in, cv.n_out) :: stageChans ls
  | Layer.convT2d cv :: ls => (cv.n_in, cv.n_out) :: stageChans ls
  | Layer.deconv blk :: ls => (blk.conv.n_in, blk.conv.n_out) :: stageChans ls
  | _ :: ls => stageChans ls

/-- The spatial size a layer produces from spatial size h. -/
def Layer.outDim : Layer → ℕ → ℕ
  | Layer.conv2d cv, h => convOutDim h cv.ks cv.stride cv.pad
  | Layer.convT2d cv, h => deconvOutDim h cv.ks cv.stride cv.pad
  | Layer.deconv blk, h => deconvOutDim h blk.conv.ks blk.conv.stride blk.conv.pad
  | _, h => h

/-- The channel count a layer produces from channel count c. -/
def Layer.outChan : Layer → ℕ → ℕ
  | Layer.conv2d cv, _ => cv.n_out
  | Layer.convT2d cv, _ => cv.n_out
  | Layer.deconv blk, _ => blk.conv.n_out
  | _, c => c

/-- For each weight-bearing stage of a pipeline, its input channels, output
channels, input spatial size and output spatial size, threading the spatial
size through the pipeline from h0. -/
def stageTrace : List Layer → ℕ → List (ℕ × ℕ × ℕ × ℕ)
  | [], _ => []
  | Layer.conv2d cv :: ls, h =>
      (cv.n_in, cv.n_out, h, (Layer.conv2d cv).outDim h) ::
        stageTrace ls ((Layer.conv2d cv).outDim h)
  | Layer.convT2d cv :: ls, h =>
      (cv.n_in, cv.n_out, h, (Layer.convT2d cv).outDim h) ::
        stageTrace ls ((Layer.convT2d cv).outDim h)
  | Layer.deconv blk :: ls, h =>
      (blk.conv.n_in, blk.conv.n_out, h, (Layer.deconv blk).outDim h) ::
        stageTrace ls ((Layer.deconv blk).outDim h)
  | l :: ls, h => stageTrace ls (l.outDim h)

/-- The internal channel counts of a pipeline: the output channel counts of
every weight-bearing stage except the last. -/
def internalChans (ls : List Layer) : List ℕ :=
  ((stageChans ls).map Prod.snd).dropLast

/-- For each convolution stage of a pipeline, whether a batch normalization
immediately follows it. -/
def normFlags : List Layer → List Bool
  | Layer.conv2d _ :: Layer.batchNorm _ :: ls => true :: normFlags ls
  | Layer.conv2d _ :: ls => false :: normFlags ls
  | _ :: ls => normFlags ls
  | [] => []

/-- The length of a one-dimensional tensor behind an Option. -/
def t1Shape : Option Tensor1 → Option ℕ :=
  Option.map Tensor1.len

/-- State-passing form of Generator.forward: the method body only reads
self.im_size, self.main64 and self.main128 and assigns no attribute, so the
explicit state-passing translation returns the instance unchanged. -/
noncomputable def Generator.forwardSt (G : Generator) (x : Tensor4) : Tensor4 × Generator :=
  (G.forward x, G)

/-- State-passing form of Discriminator.forward: the method body only reads
self.im_size, self.main64 and self.main128 and assigns no attribute, so the
explicit state-passing translation returns the instance unchanged. -/
noncomputable def Discriminator.forwardSt (D : Discriminator) (x : Tensor4) :
    Option Tensor1 × Discriminator :=
  (D.forward x, D)

/-- A sample weight family with all weights zero, used in concrete instances. -/
def zeroW : ℕ → ConvW :=
  fun _ => ⟨fun _ _ _ _ => 0⟩

/-- A sample batch-normalization parameter family, used in concrete instances. -/
def oneBN : ℕ → BNW :=
  fun _ => ⟨fun _ => 1, fun _ => 0, fun _ => 0, fun _ => 1, 1⟩

/-- A sample input tensor of the given shape with all entries zero. -/
def zeroT (n c h w : ℕ) : Tensor4 :=
  ⟨n, c, h, w, fun _ _ _ _ => 0⟩

/-- The hyperbolic tangent is smaller than one. -/
theorem tanh_lt_one (y : ℝ) : Real.tanh y < 1 := by
  rw [Real.tanh_eq_sinh_div_cosh, div_lt_one (Real.cosh_pos y)]
  exact Real.sinh_lt_cosh y

/-- The hyperbolic tangent is larger than minus one. -/
theorem neg_one_lt_tanh (y : ℝ) : -1 < Real.tanh y := by
  have h := tanh_lt_one (-y)
  rw [Real.tanh_neg] at h
  linarith

/-- Unfolding one sequential step. -/
theorem seqFwd_cons (l : Layer) (ls : List Layer) (x : Tensor4) :
    seqFwd (l :: ls) x = seqFwd ls (l.fwd x) :=
  rfl

/-- Every layer preserves the batch dimension. -/
theorem Layer.fwd_n (l : Layer) (x : Tensor4) : (l.fwd x).n = x.n := by
  cases l <;> rfl

/-- The channel count after a layer is its outChan of the input channels. -/
theorem Layer.fwd_c (l : Layer) (x : Tensor4) : (l.fwd x).c = l.outChan x.c := by
  cases l <;> rfl

/-- The height after a layer is its outDim of the input height. -/
theorem Layer.fwd_h (l : Layer) (x : Tensor4) : (l.fwd x).h = l.outDim x.h := by
  cases l <;> rfl

/-- The width after a layer is its outDim of the input width. -/
theorem Layer.fwd_w (l : Layer) (x : Tensor4) : (l.fwd x).w = l.outDim x.w := by
  cases l <;> rfl

/-- A pipeline preserves the batch dimension. -/
theorem seqFwd_n (ls : List Layer) (x : Tensor4) : (seqFwd ls x).n = x.n := by
  induction ls generalizing x with
  | nil => rfl
  | cons l ls ih => rw [seqFwd_cons, ih, Layer.fwd_n]

/-- The channel count of a pipeline output is the fold of the layerwise
channel maps. -/
theorem seqFwd_c (ls : List Layer) (x : Tensor4) :
    (seqFwd ls x).c = ls.foldl (fun c l => l.outChan c) x.c := by
  induction ls generalizing x with
  | nil => rfl
  | cons l ls ih => rw [seqFwd_cons, ih, List.foldl_cons, Layer.fwd_c]

/-- The height of a pipeline output is the fold of the layerwise spatial maps. -/
theorem seqFwd_h (ls : List Layer) (x : Tensor4) :
    (seqFwd ls x).h = ls.foldl (fun h l => l.outDim h) x.h := by
  induction ls generalizing x with
  | nil => rfl
  | cons l ls ih => rw [seqFwd_cons, ih, List.foldl_cons, Layer.fwd_h]

/-- The width of a pipeline output is the fold of the layerwise spatial maps. -/
theorem seqFwd_w (ls : List Layer) (x : Tensor4) :
    (seqFwd ls x).w = ls.foldl (fun h l => l.outDim h) x.w := by
  induction ls generalizing x with
  | nil => rfl
  | cons l ls ih => rw [seqFwd_cons, ih, List.foldl_cons, Layer.fwd_w]

/-- A generator whose stored resolution is 64 runs its 64 pipeline. -/
theorem genForward64 (G : Generator) (x : Tensor4) (h : G.im_size = 64) :
    G.forward x = seqFwd G.main64 x := by
  unfold Generator.forward
  rw [if_pos h]

/-- A generator whose stored resolution differs from 64 runs its 128 pipeline. -/
theorem genForward128 (G : Generator) (x : Tensor4) (h : G.im_size ≠ 64) :
    G.forward x = seqFwd G.main128 x := by
  unfold Generator.forward
  rw [if_neg h]

/-- A discriminator whose stored resolution is 64 runs its 64 pipeline. -/
theorem discForward64 (D : Discriminator) (x : Tensor4) (h : D.im_size = 64) :
    D.forward x = viewOne (meanDim0 (seqFwd D.main64 x)) := by
  unfold Discriminator.forward
  rw [if_pos h]

/-- A discriminator whose stored resolution differs from 64 runs its 128
pipeline. -/
theorem discForward128 (D : Discriminator) (x : Tensor4) (h : D.im_size ≠ 64) :
    D.forward x = viewOne (meanDim0 (seqFwd D.main128 x)) := by
  unfold Discriminator.forward
  rw [if_neg h]

/-- When a tensor has one channel and one-by-one spatial size, the mean over
the batch followed by the one-element view is defined and returns the batch
average of the single entry per sample. -/
theorem viewOne_meanDim0_eq (t : Tensor4) (hc : t.c = 1) (hh : t.h = 1) (hw : t.w = 1) :
    viewOne (meanDim0 t)
      = some ⟨1, fun _ => (∑ b ∈ Finset.range t.n, t.data b 0 0 0) / (t.n : ℝ)⟩ := by
  obtain ⟨n, c, h, w, d⟩ := t
  dsimp only at hc hh hw
  subst hc hh hw
  rfl

/-- Two three-dimensional tensors of equal shape produce equally shaped
results under the one-element view. -/
theorem viewOne_shape_congr (a b : Tensor3) (hc : a.c = b.c) (hh : a.h = b.h)
    (hw : a.w = b.w) : t1Shape (viewOne a) = t1Shape (viewOne b) := by
  unfold viewOne t1Shape
  rw [hc, hh, hw]
  split <;> rfl

/-- C1: with the kernel size 4 assumed by the in-source shape comments, a
Generator built with resolution 64 maps a latent tensor of shape N, nz, 1, 1
to an image of shape N, 3, 64, 64, and a Generator built with resolution 128
maps it to shape N, 3, 128, 128; in both cases every entry of the output lies
between -1 and 1 because both pipelines end in a hyperbolic tangent. -/
theorem generator_shape_and_range (N nz ngf ngpu : ℕ) (dw : ℕ → ConvW) (bw : ℕ → BNW)
    (x : Tensor4) (hn : x.n = N) (hc : x.c = nz) (hh : x.h = 1) (hw : x.w = 1) :
    ((Generator.init 64 4 nz ngf 3 ngpu dw bw).forward x).n = N ∧
    ((Generator.init 64 4 nz ngf 3 ngpu dw bw).forward x).c = 3 ∧
    ((Generator.init 64 4 nz ngf 3 ngpu dw bw).forward x).h = 64 ∧
    ((Generator.init 64 4 nz ngf 3 ngpu dw bw).forward x).w = 64 ∧
    (∀ a b i j, -1 ≤ ((Generator.init 64 4 nz ngf 3 ngpu dw bw).forward x).data a b i j ∧
        ((Generator.init 64 4 nz ngf 3 ngpu dw bw).forward x).data a b i j ≤ 1) ∧
    ((Generator.init 128 4 nz ngf 3 ngpu dw bw).forward x).n = N ∧
    ((Generator.init 128 4 nz ngf 3 ngpu dw bw).forward x).c = 3 ∧
    ((Generator.init 128 4 nz ngf 3 ngpu dw bw).forward x).h = 128 ∧
    ((Generator.init 128 4 nz ngf 3 ngpu dw bw).forward x).w = 128 ∧
    (∀ a b i j, -1 ≤ ((Generator.init 128 4 nz ngf 3 ngpu dw bw).forward x).data a b i j ∧
        ((Generator.init 128 4 nz ngf 3 ngpu dw bw).forward x).data a b i j ≤ 1) := by
  obtain ⟨xn, xc, xh, xw, xd⟩ := x
  dsimp only at hn hc hh hw
  subst hn hc hh hw
  exact ⟨rfl, rfl, rfl, rfl,
    fun a b i j => ⟨(neg_one_lt_tanh _).le, (tanh_lt_one _).le⟩,
    rfl, rfl, rfl, rfl,
    fun a b i j => ⟨(neg_one_lt_tanh _).le, (tanh_lt_one _).le⟩⟩

/-- Witness for C1 at batch size 1, latent width 2 and base width 1. -/
theorem generator_shape_and_range_witness :
    ((Generator.init 64 4 2 1 3 1 zeroW oneBN).forward (zeroT 1 2 1 1)).h = 64 ∧
    ((Generator.init 128 4 2 1 3 1 zeroW oneBN).forward (zeroT 1 2 1 1)).h = 128 ∧
    -1 ≤ ((Generator.init 64 4 2 1 3 1 zeroW oneBN).forward (zeroT 1 2 1 1)).data 0 0 0 0 :=
  ⟨(generator_shape_and_range 1 2 1 1 zeroW oneBN (zeroT 1 2 1 1) rfl rfl rfl rfl).2.2.1,
   (generator_shape_and_range 1 2 1 1 zeroW oneBN
      (zeroT 1 2 1 1) rfl rfl rfl rfl).2.2.2.2.2.2.2.2.1,
   ((generator_shape_and_range 1 2 1 1 zeroW oneBN
      (zeroT 1 2 1 1) rfl rfl rfl rfl).2.2.2.2.1 0 0 0 0).1⟩

/-- C2: with the kernel size 4 assumed by the in-source shape comments, a
Discriminator built with resolution 64 on an image of shape N, 3, 64, 64, and
one built with resolution 128 on an image of shape N, 3, 128, 128, each return
a defined one-element tensor whose entry is the average over the batch of the
final single-channel one-by-one map. -/
theorem discriminator_scalar_output (N ndf ngpu : ℕ) (cw : ℕ → ConvW) (bw : ℕ → BNW)
    (y z : Tensor4)
    (h1 : y.n = N) (h2 : y.c = 3) (h3 : y.h = 64) (h4 : y.w = 64)
    (h5 : z.n = N) (h6 : z.c = 3) (h7 : z.h = 128) (h8 : z.w = 128) :
    (Discriminator.init 64 4 ndf 3 ngpu cw bw).forward y
      = some ⟨1, fun _ =>
          (∑ b ∈ Finset.range N,
            (seqFwd (Discriminator.init 64 4 ndf 3 ngpu cw bw).main64 y).data b 0 0 0)
            / (N : ℝ)⟩ ∧
    (Discriminator.init 128 4 ndf 3 ngpu cw bw).forward z
      = some ⟨1, fun _ =>
          (∑ b ∈ Finset.range N,
            (seqFwd (Discriminator.init 128 4 ndf 3 ngpu cw bw).main128 z).data b 0 0 0)
            / (N : ℝ)⟩ := by
  obtain ⟨an, ac, ah, aw, ad⟩ := y
  obtain ⟨zn, zc, zh, zw, zd⟩ := z
  dsimp only at h1 h2 h3 h4 h5 h6 h7 h8
  subst h1 h2 h3 h4 h5 h6 h7 h8
  constructor
  · rw [discForward64 _ _ rfl, viewOne_meanDim0_eq, seqFwd_n]
    · rw [seqFwd_c]
      simp [Discriminator.init, conv_block, Layer.outChan, resolvePad]
    · rw [seqFwd_h]
      simp [Discriminator.init, conv_block, Layer.outDim, convOutDim, resolvePad]
    · rw [seqFwd_w]
      simp [Discriminator.init, conv_block, Layer.outDim, convOutDim, resolvePad]
  · rw [discForward128 _ _ (by simp [Discriminator.init]),
      viewOne_meanDim0_eq, seqFwd_n]
    · rw [seqFwd_c]
      simp [Discriminator.init, conv_block, Layer.outChan, resolvePad]
    · rw [seqFwd_h]
      simp [Discriminator.init, conv_block, Layer.outDim, convOutDim, resolvePad]
    · rw [seqFwd_w]
      simp [Discriminator.init, conv_block, Layer.outDim, convOutDim, resolvePad]

/-- Witness for C2 at batch size 1 and base width 1. -/
theorem discriminator_scalar_output_witness :
    (∃ t : Tensor1,
      (Discriminator.init 64 4 1 3 1 zeroW oneBN).forward (zeroT 1 3 64 64) = some t) ∧
    (∃ t : Tensor1,
      (Discriminator.init 128 4 1 3 1 zeroW oneBN).forward (zeroT 1 3 128 128) = some t) :=
  ⟨⟨_, (discriminator_scalar_output 1 1 1 zeroW oneBN (zeroT 1 3 64 64)
      (zeroT 1 3 128 128) rfl rfl rfl rfl rfl rfl rfl rfl).1⟩,
   ⟨_, (discriminator_scalar_output 1 1 1 zeroW oneBN (zeroT 1 3 64 64)
      (zeroT 1 3 128 128) rfl rfl rfl rfl rfl rfl rfl rfl).2⟩⟩

/-- C6 counterexample: in the 64 pipeline of a Generator with latent width 100
and base width 64, the final stage is an upsampling stage, doubling the
spatial size from 32 to 64, yet it maps the channel depth from 64 to 3 rather
than halving it, so not every upsampling stage halves the channel depth. -/
theorem gen_stage_not_all_halving :
    (64, 3, 32, 64) ∈ stageTrace (Generator.init 64 4 100 64 3 1 zeroW oneBN).main64 1 ∧
    ¬ (∀ q ∈ stageTrace (Generator.init 64 4 100 64 3 1 zeroW oneBN).main64 1,
        q.2.2.2 = 2 * q.2.2.1 ∧ q.1 = 2 * q.2.1) := by
  decide

/-- C6 amended: in each generator pipeline with kernel size 4, every stage
past the initial latent projection doubles the spatial size; the channel depth
starts at ngf times 8 for resolution 64 and ngf times 16 for resolution 128
and halves from stage to stage down to ngf; and the final stage outputs 3
channels rather than half its input depth. -/
theorem gen_stage_trace (nz ngf ngpu : ℕ) (dw : ℕ → ConvW) (bw : ℕ → BNW) :
    stageTrace (Generator.init 64 4 nz ngf 3 ngpu dw bw).main64 1
      = [(nz, ngf * 8, 1, 4), (ngf * 8, ngf * 4, 4, 8), (ngf * 4, ngf * 2, 8, 16),
         (ngf * 2, ngf, 16, 32), (ngf, 3, 32, 64)] ∧
    stageTrace (Generator.init 128 4 nz ngf 3 ngpu dw bw).main128 1
      = [(nz, ngf * 16, 1, 4), (ngf * 16, ngf * 8, 4, 8), (ngf * 8, ngf * 4, 8, 16),
         (ngf * 4, ngf * 2, 16, 32), (ngf * 2, ngf, 32, 64), (ngf, 3, 64, 128)] :=
  ⟨rfl, rfl⟩

/-- C7: scaling the generator or discriminator base width by a factor k scales
every internal channel count by k and leaves the shape of the output on the
same input unchanged. -/
theorem base_width_scaling (im ks nz ngf ndf nc ngpu k : ℕ)
    (dw cw : ℕ → ConvW) (bw : ℕ → BNW) (x : Tensor4) :
    internalChans (Generator.init im ks nz (k * ngf) nc ngpu dw bw).main64
      = (internalChans (Generator.init im ks nz ngf nc ngpu dw bw).main64).map
          (fun m => k * m) ∧
    internalChans (Generator.init im ks nz (k * ngf) nc ngpu dw bw).main128
      = (internalChans (Generator.init im ks nz ngf nc ngpu dw bw).main128).map
          (fun m => k * m) ∧
    internalChans (Discriminator.init im ks (k * ndf) nc ngpu cw bw).main64
      = (internalChans (Discriminator.init im ks ndf nc ngpu cw bw).main64).map
          (fun m => k * m) ∧
    internalChans (Discriminator.init im ks (k * ndf) nc ngpu cw bw).main128
      = (internalChans (Discriminator.init im ks ndf nc ngpu cw bw).main128).map
          (fun m => k * m) ∧
    ((Generator.init im ks nz (k * ngf) nc ngpu dw bw).forward x).n
      = ((Generator.init im ks nz ngf nc ngpu dw bw).forward x).n ∧
    ((Generator.init im ks nz (k * ngf) nc ngpu dw bw).forward x).c
      = ((Generator.init im ks nz ngf nc ngpu dw bw).forward x).c ∧
    ((Generator.init im ks nz (k * ngf) nc ngpu dw bw).forward x).h
      = ((Generator.init im ks nz ngf nc ngpu dw bw).forward x).h ∧
    ((Generator.init im ks nz (k * ngf) nc ngpu dw bw).forward x).w
      = ((Generator.init im ks nz ngf nc ngpu dw bw).forward x).w ∧
    t1Shape ((Discriminator.init im ks (k * ndf) nc ngpu cw bw).forward x)
      = t1Shape ((Discriminator.init im ks ndf nc ngpu cw bw).forward x) := by
  refine ⟨?_, ?_, ?_, ?_, ?_, ?_, ?_, ?_, ?_⟩
  · simp [internalChans, stageChans, Generator.init, DeconvBlock.init, List.dropLast,
      Nat.mul_assoc]
  · simp [internalChans, stageChans, Generator.init, DeconvBlock.init, List.dropLast,
      Nat.mul_assoc]
  · simp [internalChans, stageChans, Discriminator.init, conv_block, List.dropLast,
      Nat.mul_assoc]
  · simp [internalChans, stageChans, Discriminator.init, conv_block, List.dropLast,
      Nat.mul_assoc]
  · by_cases him : im = 64
    · rw [genForward64 _ _ him, genForward64 _ _ him, seqFwd_n, seqFwd_n]
    · rw [genForward128 _ _ him, genForward128 _ _ him, seqFwd_n, seqFwd_n]
  · by_cases him : im = 64
    · rw [genForward64 _ _ him, genForward64 _ _ him, seqFwd_c, seqFwd_c]
      simp [Generator.init, DeconvBlock.init, Layer.outChan]
    · rw [genForward128 _ _ him, genForward128 _ _ him, seqFwd_c, seqFwd_c]
      simp [Generator.init, DeconvBlock.init, Layer.outChan]
  · by_cases him : im = 64
    · rw [genForward64 _ _ him, genForward64 _ _ him, seqFwd_h, seqFwd_h]
      simp [Generator.init, DeconvBlock.init, Layer.outDim]
    · rw [genForward128 _ _ him, genForward128 _ _ him, seqFwd_h, seqFwd_h]
      simp [Generator.init, DeconvBlock.init, Layer.outDim]
  · by_cases him : im = 64
    · rw [genForward64 _ _ him, genForward64 _ _ him, seqFwd_w, seqFwd_w]
      simp [Generator.init, DeconvBlock.init, Layer.outDim]
    · rw [genForward128 _ _ him, genForward128 _ _ him, seqFwd_w, seqFwd_w]
      simp [Generator.init, DeconvBlock.init, Layer.outDim]
  · by_cases him : im = 64
    · rw [discForward64 _ _ him, discForward64 _ _ him]
      refine viewOne_shape_congr _ _ ?_ ?_ ?_
      · show (seqFwd _ _).c = (seqFwd _ _).c
        rw [seqFwd_c, seqFwd_c]
        simp [Discriminator.init, conv_block, Layer.outChan, resolvePad]
      · show (seqFwd _ _).h = (seqFwd _ _).h
        rw [seqFwd_h, seqFwd_h]
        simp [Discriminator.init, conv_block, Layer.outDim, resolvePad]
      · show (seqFwd _ _).w = (seqFwd _ _).w
        rw [seqFwd_w, seqFwd_w]
        simp [Discriminator.init, conv_block, Layer.outDim, resolvePad]
    · rw [discForward128 _ _ him, discForward128 _ _ him]
      refine viewOne_shape_congr _ _ ?_ ?_ ?_
      · show (seqFwd _ _).c = (seqFwd _ _).c
        rw [seqFwd_c, seqFwd_c]
        simp [Discriminator.init, conv_block, Layer.outChan, resolvePad]
      · show (seqFwd _ _).h = (seqFwd _ _).h
        rw [seqFwd_h, seqFwd_h]
        simp [Discriminator.init, conv_block, Layer.outDim, resolvePad]
      · show (seqFwd _ _).w = (seqFwd _ _).w
        rw [seqFwd_w, seqFwd_w]
        simp [Discriminator.init, conv_block, Layer.outDim, resolvePad]

/-- C3: the DeconvBlock side of the layer-block contract fails: a DeconvBlock
constructed with its normalize flag set to false still applies batch
normalization in its forward pass, because the constructor stores an
nn.BatchNorm2d unconditionally and forward tests the Python truthiness of
self.bn, which is always true for a module; conv_block, in contrast, honors
its flag and emits no normalization layer when the flag is false. -/
theorem deconvBlock_ignores_bn_flag (n_in n_out ks stride pad : ℕ) (cw : ConvW) (bw : BNW)
    (x : Tensor4) :
    (DeconvBlock.init n_in n_out ks stride pad false cw bw).forward x
      = BatchNorm2d.fwd ⟨n_out, bw.gamma, bw.beta, bw.mean, bw.var, bw.eps⟩
          (reluFwd (ConvTranspose2d.fwd ⟨n_in, n_out, ks, stride, pad, cw.w⟩ x)) ∧
    normFlags (conv_block n_in n_out ks stride (some pad) false cw bw) = [false] :=
  ⟨rfl, rfl⟩

/-- C4: for every Discriminator configuration the first stage applies no
normalization while each later convolution stage before the final single
channel convolution does: scanning both pipelines for convolutions followed by
a batch normalization yields false for the first stage, true for every middle
stage, and false for the final one-channel convolution. -/
theorem discriminator_norm_placement (im_size ks ndf nc ngpu : ℕ)
    (cw : ℕ → ConvW) (bw : ℕ → BNW) :
    normFlags (Discriminator.init im_size ks ndf nc ngpu cw bw).main64
        = [false, true, true, true, false] ∧
    normFlags (Discriminator.init im_size ks ndf nc ngpu cw bw).main128
        = [false, true, true, true, true, false] :=
  ⟨rfl, rfl⟩

/-- C5: a generator DeconvBlock computes deconvolution, then activation, then
normalization, and a normalizing discriminator conv_block computes
convolution, then normalization, then leaky activation. -/
theorem block_stage_order (blk : DeconvBlock) (n_in n_out ks stride : ℕ) (pad : Option ℕ)
    (cw : ConvW) (bw : BNW) (x : Tensor4) :
    blk.forward x = blk.bn.fwd (reluFwd (blk.conv.fwd x)) ∧
    seqFwd (conv_block n_in n_out ks stride pad true cw bw) x
      = leakyFwd 0.2
          (BatchNorm2d.fwd ⟨n_out, bw.gamma, bw.beta, bw.mean, bw.var, bw.eps⟩
            (Conv2d.fwd ⟨n_in, n_out, ks, stride, resolvePad ks stride pad, cw.w⟩ x)) :=
  ⟨rfl, rfl⟩

/-- C8: the forward passes are deterministic and stateless: on equal inputs
the generator and the discriminator produce equal outputs, and the explicit
state-passing forms of both forwards leave the module state unchanged, so a
second evaluation on the resulting state agrees with the first. -/
theorem forward_deterministic_stateless (G : Generator) (D : Discriminator)
    (x y : Tensor4) (hxy : x = y) :
    G.forward x = G.forward y ∧ D.forward x = D.forward y ∧
    (G.forwardSt x).2 = G ∧ (D.forwardSt x).2 = D ∧
    ((G.forwardSt x).2.forwardSt x).1 = (G.forwardSt x).1 ∧
    ((D.forwardSt x).2.forwardSt x).1 = (D.forwardSt x).1 := by
  subst hxy
  exact ⟨rfl, rfl, rfl, rfl, rfl, rfl⟩

/-- Witness for C8 at a concrete generator, discriminator and input. -/
theorem forward_deterministic_stateless_witness :
    (Generator.init 64 4 2 1 3 1 zeroW oneBN).forward (zeroT 1 2 1 1)
      = (Generator.init 64 4 2 1 3 1 zeroW oneBN).forward (zeroT 1 2 1 1) ∧
    (Discriminator.init 64 4 1 3 1 zeroW oneBN).forward (zeroT 1 2 1 1)
      = (Discriminator.init 64 4 1 3 1 zeroW oneBN).forward (zeroT 1 2 1 1) ∧
    ((Generator.init 64 4 2 1 3 1 zeroW oneBN).forwardSt (zeroT 1 2 1 1)).2
      = Generator.init 64 4 2 1 3 1 zeroW oneBN ∧
    ((Discriminator.init 64 4 1 3 1 zeroW oneBN).forwardSt (zeroT 1 2 1 1)).2
      = Discriminator.init 64 4 1 3 1 zeroW oneBN ∧
    (((Generator.init 64 4 2 1 3 1 zeroW oneBN).forwardSt (zeroT 1 2 1 1)).2.forwardSt
        (zeroT 1 2 1 1)).1
      = ((Generator.init 64 4 2 1 3 1 zeroW oneBN).forwardSt (zeroT 1 2 1 1)).1 ∧
    (((Discriminator.init 64 4 1 3 1 zeroW oneBN).forwardSt (zeroT 1 2 1 1)).2.forwardSt
        (zeroT 1 2 1 1)).1
      = ((Discriminator.init 64 4 1 3 1 zeroW oneBN).forwardSt (zeroT 1 2 1 1)).1 :=
  forward_deterministic_stateless (Generator.init 64 4 2 1 3 1 zeroW oneBN)
    (Discriminator.init 64 4 1 3 1 zeroW oneBN) (zeroT 1 2 1 1) (zeroT 1 2 1 1) rfl

/-- C9: the stored device-count hint ngpu does not influence forward: two
generators or discriminators identical except for ngpu store their respective
hints yet produce equal outputs on every input. -/
theorem ngpu_unused (im ks nz ngf ndf nc g1 g2 : ℕ)
    (dw cw : ℕ → ConvW) (bw : ℕ → BNW) (x : Tensor4) :
    (Generator.init im ks nz ngf nc g1 dw bw).ngpu = g1 ∧
    (Generator.init im ks nz ngf nc g1 dw bw).forward x
      = (Generator.init im ks nz ngf nc g2 dw bw).forward x ∧
    (Discriminator.init im ks ndf nc g1 cw bw).ngpu = g1 ∧
    (Discriminator.init im ks ndf nc g1 cw bw).forward x
      = (Discriminator.init im ks ndf nc g2 cw bw).forward x :=
  ⟨rfl, rfl, rfl, rfl⟩

/-- C10: the resolution branch only tests equality with 64: a stored im_size
other than 64 selects the 128 pipeline of both modules, im_size 64 selects the
64 pipeline, and no im_size value is rejected. -/
theorem im_size_dispatch (s ks nz ngf ndf nc ngpu : ℕ)
    (dw cw : ℕ → ConvW) (bw : ℕ → BNW) (x : Tensor4) (hs : s ≠ 64) :
    (Generator.init s ks nz ngf nc ngpu dw bw).forward x
      = seqFwd (Generator.init s ks nz ngf nc ngpu dw bw).main128 x ∧
    (Generator.init 64 ks nz ngf nc ngpu dw bw).forward x
      = seqFwd (Generator.init 64 ks nz ngf nc ngpu dw bw).main64 x ∧
    (Discriminator.init s ks ndf nc ngpu cw bw).forward x
      = viewOne (meanDim0 (seqFwd (Discriminator.init s ks ndf nc ngpu cw bw).main128 x)) ∧
    (Discriminator.init 64 ks ndf nc ngpu cw bw).forward x
      = viewOne (meanDim0 (seqFwd (Discriminator.init 64 ks ndf nc ngpu cw bw).main64 x)) := by
  refine ⟨?_, rfl, ?_, rfl⟩ <;>
    simp [Generator.forward, Discriminator.forward, Generator.init, Discriminator.init, hs]

/-- Witness for C10 at the concrete stored resolution 32. -/
theorem im_size_dispatch_witness :
    (Generator.init 32 4 2 1 3 1 zeroW oneBN).forward (zeroT 1 2 1 1)
      = seqFwd (Generator.init 32 4 2 1 3 1 zeroW oneBN).main128 (zeroT 1 2 1 1) ∧
    (Generator.init 64 4 2 1 3 1 zeroW oneBN).forward (zeroT 1 2 1 1)
      = seqFwd (Generator.init 64 4 2 1 3 1 zeroW oneBN).main64 (zeroT 1 2 1 1) ∧
    (Discriminator.init 32 4 1 3 1 zeroW oneBN).forward (zeroT 1 2 1 1)
      = viewOne (meanDim0
          (seqFwd (Discriminator.init 32 4 1 3 1 zeroW oneBN).main128 (zeroT 1 2 1 1))) ∧
    (Discriminator.init 64 4 1 3 1 zeroW oneBN).forward (zeroT 1 2 1 1)
      = viewOne (meanDim0
          (seqFwd (Discriminator.init 64 4 1 3 1 zeroW oneBN).main64 (zeroT 1 2 1 1))) :=
  im_size_dispatch 32 4 2 1 1 3 1 zeroW zeroW oneBN (zeroT 1 2 1 1) (by decide)

end WGAN
